import Mathlib

/-!
Verification of the microcks-testcontainers-node client library.

The TypeScript sources under `src/` are shallowly embedded: pure string
formatting becomes Lean functions on `String`, the filesystem and the HTTP
boundary become explicit environments (`IOEnv`, `PollEnv`) supplying `stat`
results and response statuses, and each operation returns an
`Except String _` (the thrown error message) together with the list of HTTP
requests it issued. Machine integers of the source are modelled as `Nat`
(statuses, ports, milliseconds); none of the embedded code relies on
overflow.
-/

namespace Microcks

/-! ## JavaScript string primitives used by the sources -/

/-- Characters matched by the JavaScript regexp class `\s` (ECMA-262
WhiteSpace and LineTerminator productions). -/
def isJsWhitespace (c : Char) : Bool :=
  c = ' ' || c = '\t' || c = '\n' || c.toNat = 0x0B || c.toNat = 0x0C || c = '\r' ||
  c.toNat = 0xA0 || c.toNat = 0x1680 || (0x2000 ≤ c.toNat && c.toNat ≤ 0x200A) ||
  c.toNat = 0x2028 || c.toNat = 0x2029 || c.toNat = 0x202F || c.toNat = 0x205F ||
  c.toNat = 0x3000 || c.toNat = 0xFEFF

/-- Model of `s.replace(/<class>/g, '')`: remove every character satisfying
`p`. -/
def stripAll (p : Char → Bool) (s : String) : String :=
  ⟨s.data.filter (fun c => !(p c))⟩

/-- Model of `s.replace(/<char>/g, '<char>')`: replace every occurrence of the
single character `a` by `b`. -/
def replaceCharAll (a b : Char) (s : String) : String :=
  ⟨s.data.map (fun c => if c = a then b else c)⟩

/-- Model of the JavaScript idiom
`if (s.indexOf(' ') != -1) s = s.split(' ')[1]` used on operation names:
when the string contains a space, keep the token right after the first
space. -/
def splitSecondToken (s : String) : String :=
  if s.contains ' ' then (s.splitOn " ").getD 1 "" else s

/-- UTF-8 bytes of a single character (as `Nat`s below 256). -/
def utf8Bytes (c : Char) : List Nat :=
  let n := c.toNat
  if n < 0x80 then [n]
  else if n < 0x800 then [0xC0 + n / 0x40, 0x80 + n % 0x40]
  else if n < 0x10000 then
    [0xE0 + n / 0x1000, 0x80 + (n / 0x40) % 0x40, 0x80 + n % 0x40]
  else
    [0xF0 + n / 0x40000, 0x80 + (n / 0x1000) % 0x40, 0x80 + (n / 0x40) % 0x40,
     0x80 + n % 0x40]

/-- Uppercase hexadecimal digit. -/
def hexDigitChar (n : Nat) : Char :=
  if n < 10 then Char.ofNat (48 + n) else Char.ofNat (55 + n)

/-- Percent-encode a byte sequence as `%XX%YY...` with uppercase hex. -/
def percentEncodeBytes (bs : List Nat) : String :=
  bs.foldl
    (fun acc b =>
      acc ++ "%" ++ String.singleton (hexDigitChar (b / 16)) ++
        String.singleton (hexDigitChar (b % 16)))
    ""

/-- Characters left untouched by JavaScript `encodeURIComponent`:
ASCII alphanumerics and `- _ . ! ~ * ' ( )`. -/
def isUriUnreserved (c : Char) : Bool :=
  c.isAlphanum || c = '-' || c = '_' || c = '.' || c = '!' || c = '~' ||
  c = '*' || c = '\'' || c = '(' || c = ')'

/-- Model of JavaScript `encodeURIComponent`: unreserved characters pass
through, every other character is percent-encoded byte-by-byte (UTF-8). -/
def encodeURIComponent (s : String) : String :=
  s.data.foldl
    (fun acc c =>
      acc ++ (if isUriUnreserved c then String.singleton c else percentEncodeBytes (utf8Bytes c)))
    ""

/-! ## StartedMicrocksContainer: mock endpoint URL builders -/

/-- The observable state of a started Microcks container that the URL
builders read: the docker host and the mapped HTTP/gRPC ports. -/
structure StartedMicrocksContainer where
  host : String
  httpPort : Nat
  grpcPort : Nat
deriving DecidableEq, Repr

/-- `getHttpEndpoint` of `StartedMicrocksContainer`. -/
def StartedMicrocksContainer.getHttpEndpoint (c : StartedMicrocksContainer) : String :=
  "http://" ++ c.host ++ ":" ++ toString c.httpPort

/-- `getSoapMockEndpoint` of `StartedMicrocksContainer`. -/
def StartedMicrocksContainer.getSoapMockEndpoint (c : StartedMicrocksContainer)
    (service version : String) : String :=
  "http://" ++ c.host ++ ":" ++ toString c.httpPort ++ "/soap/" ++ service ++ "/" ++ version

/-- `getRestMockEndpoint` of `StartedMicrocksContainer`. -/
def StartedMicrocksContainer.getRestMockEndpoint (c : StartedMicrocksContainer)
    (service version : String) : String :=
  "http://" ++ c.host ++ ":" ++ toString c.httpPort ++ "/rest/" ++ service ++ "/" ++ version

/-- `getGraphQLMockEndpoint` of `StartedMicrocksContainer`. -/
def StartedMicrocksContainer.getGraphQLMockEndpoint (c : StartedMicrocksContainer)
    (service version : String) : String :=
  "http://" ++ c.host ++ ":" ++ toString c.httpPort ++ "/graphql/" ++ service ++ "/" ++ version

/-- `getGrpcMockEndpoint` of `StartedMicrocksContainer`. -/
def StartedMicrocksContainer.getGrpcMockEndpoint (c : StartedMicrocksContainer) : String :=
  "grpc://" ++ c.host ++ ":" ++ toString c.grpcPort

/-! ## StartedMicrocksAsyncMinionContainer: async destination name builders -/

/-- `getKafkaMockTopic` of `StartedMicrocksAsyncMinionContainer`: the service
name with whitespace then hyphens removed, `-`, the version verbatim, `-`,
and the operation name with every slash replaced by a hyphen, the operation
name being first cut to `split(' ')[1]` when it contains a space. -/
def getKafkaMockTopic (service version operationName : String) : String :=
  let operationName := splitSecondToken operationName
  stripAll (fun c => c = '-') (stripAll isJsWhitespace service) ++ "-" ++ version ++ "-" ++
    replaceCharAll '/' '-' operationName

/-- `getMQTTMockTopic` of `StartedMicrocksAsyncMinionContainer`. -/
def getMQTTMockTopic (service version operationName : String) : String :=
  let operationName := splitSecondToken operationName
  stripAll (fun c => c = '-') (stripAll isJsWhitespace service) ++ "-" ++
    stripAll isJsWhitespace version ++ "-" ++ operationName

/-- `getAmazonServiceMockDestination` of
`StartedMicrocksAsyncMinionContainer` (shared by the SQS queue and SNS topic
builders). -/
def getAmazonServiceMockDestination (service version operationName : String) : String :=
  let operationName := splitSecondToken operationName
  stripAll (fun c => c = '-') (stripAll isJsWhitespace service) ++ "-" ++
    stripAll (fun c => c = '.') (stripAll isJsWhitespace version) ++ "-" ++
    replaceCharAll '/' '-' operationName

/-- `getAmazonSQSMockQueue` of `StartedMicrocksAsyncMinionContainer`. -/
def getAmazonSQSMockQueue (service version operationName : String) : String :=
  getAmazonServiceMockDestination service version operationName

/-- `getAmazonSNSMockTopic` of `StartedMicrocksAsyncMinionContainer`. -/
def getAmazonSNSMockTopic (service version operationName : String) : String :=
  getAmazonServiceMockDestination service version operationName

/-! ## Test case identifiers (getMessagesForTestCase / getEventMessagesForTestCase) -/

/-- The fields of the `TestResult` DTO that the embedded client code reads.
The remaining fields of the TypeScript interface (`testDate`,
`testedEndpoint`, `serviceId`, ..., `testCaseResults`) are opaque payload
never inspected by the library and are omitted. -/
structure TestResult where
  id : String
  version : Nat
  testNumber : Nat
  inProgress : Bool
  success : Bool
  elapsedTime : Nat
deriving DecidableEq, Repr

/-- `encode` of `StartedMicrocksContainer`: replace every `/` by `!`, then
`encodeURIComponent`. -/
def StartedMicrocksContainer.encode (operation : String) : String :=
  encodeURIComponent (replaceCharAll '/' '!' operation)

/-- The composite test case identifier built by `getMessagesForTestCase` and
`getEventMessagesForTestCase`. -/
def testCaseIdOf (testResult : TestResult) (operationName : String) : String :=
  testResult.id ++ "-" ++ toString testResult.testNumber ++ "-" ++
    StartedMicrocksContainer.encode operationName

/-- URL queried by `getMessagesForTestCase`. -/
def StartedMicrocksContainer.getMessagesForTestCaseUrl (c : StartedMicrocksContainer)
    (testResult : TestResult) (operationName : String) : String :=
  c.getHttpEndpoint ++ "/api/tests/" ++ testResult.id ++ "/messages/" ++
    testCaseIdOf testResult operationName

/-- URL queried by `getEventMessagesForTestCase`. -/
def StartedMicrocksContainer.getEventMessagesForTestCaseUrl (c : StartedMicrocksContainer)
    (testResult : TestResult) (operationName : String) : String :=
  c.getHttpEndpoint ++ "/api/tests/" ++ testResult.id ++ "/events/" ++
    testCaseIdOf testResult operationName

/-! ## Effectful operations: filesystem and HTTP boundary

An `HttpReq` records the method and URL of one `fetch` call (request bodies
and headers carry no information the verified claims depend on). An `IOEnv`
is the external world: `stat` yields `none` when `fs.stat` rejects
(ENOENT/EACCES), `status` is the HTTP status the server answers a request
with, and `bodyText` the string coercion of the parsed response body that
the source interpolates into its error messages. -/

structure HttpReq where
  method : String
  url : String
deriving DecidableEq, Repr

/-- Result of `fs.stat` when it resolves. Only `isFile()` is consulted. -/
structure FileStats where
  isFile : Bool
deriving DecidableEq, Repr

structure IOEnv where
  stat : String → Option FileStats
  status : HttpReq → Nat
  bodyText : HttpReq → String

/-- `isFile` of `StartedMicrocksContainer`: `await stat(path)` (rejecting —
modelled as `.error` — when the path cannot be stat'ed) followed by
`stats.isFile()`. -/
def StartedMicrocksContainer.isFileCheck (env : IOEnv) (path : String) :
    Except String Bool :=
  match env.stat path with
  | none => .error ("ENOENT: no such file or directory, stat " ++ path)
  | some stats => .ok stats.isFile

/-- `importArtifact` of `StartedMicrocksContainer`: check the path names a
regular file, then POST it (multipart) to the upload endpoint; any thrown
error is the `.error` case, and the second component lists the HTTP requests
issued during the call. -/
def StartedMicrocksContainer.importArtifact (c : StartedMicrocksContainer) (env : IOEnv)
    (artifactPath : String) (mainArtifact : Bool) : Except String Unit × List HttpReq :=
  match StartedMicrocksContainer.isFileCheck env artifactPath with
  | .error e => (.error e, [])
  | .ok false =>
      (.error ("Artifact " ++ artifactPath ++ "  does not exist or can't be read"), [])
  | .ok true =>
      let uploadURI := c.getHttpEndpoint ++ "/api/artifact/upload" ++
        (if mainArtifact then "" else "?mainArtifact=false")
      let req : HttpReq := ⟨"POST", uploadURI⟩
      if env.status req ≠ 201 then
        (.error ("Artifact has not been correctly been imported: " ++ env.bodyText req), [req])
      else (.ok (), [req])

/-- `importAsMainArtifact` of `StartedMicrocksContainer`. -/
def StartedMicrocksContainer.importAsMainArtifact (c : StartedMicrocksContainer)
    (env : IOEnv) (artifactPath : String) : Except String Unit × List HttpReq :=
  c.importArtifact env artifactPath true

/-- `importAsSecondaryArtifact` of `StartedMicrocksContainer`. -/
def StartedMicrocksContainer.importAsSecondaryArtifact (c : StartedMicrocksContainer)
    (env : IOEnv) (artifactPath : String) : Except String Unit × List HttpReq :=
  c.importArtifact env artifactPath false

/-- `importSnapshotInternal` of `StartedMicrocksContainer`. -/
def StartedMicrocksContainer.importSnapshotInternal (c : StartedMicrocksContainer)
    (env : IOEnv) (snapshotPath : String) : Except String Unit × List HttpReq :=
  match StartedMicrocksContainer.isFileCheck env snapshotPath with
  | .error e => (.error e, [])
  | .ok false =>
      (.error ("Snapshot " ++ snapshotPath ++ "  does not exist or can't be read"), [])
  | .ok true =>
      let req : HttpReq := ⟨"POST", c.getHttpEndpoint ++ "/api/import"⟩
      if env.status req ≠ 201 then
        (.error ("Snapshot has not been correctly been imported: " ++ env.bodyText req), [req])
      else (.ok (), [req])

/-- `importSnapshot` of `StartedMicrocksContainer`. -/
def StartedMicrocksContainer.importSnapshot (c : StartedMicrocksContainer)
    (env : IOEnv) (snapshotPath : String) : Except String Unit × List HttpReq :=
  c.importSnapshotInternal env snapshotPath

/-- The `Secret` DTO. -/
structure Secret where
  name : String
  description : Option String := none
  username : Option String := none
  password : Option String := none
  token : Option String := none
  tokenHeader : Option String := none
  caCertPem : Option String := none
deriving DecidableEq, Repr

/-- `createSecret` of `StartedMicrocksContainer`: one JSON POST to
`/api/secrets`, raising unless the status is 201. -/
def StartedMicrocksContainer.createSecret (c : StartedMicrocksContainer) (env : IOEnv)
    (_secret : Secret) : Except String Unit × List HttpReq :=
  let createURI := c.getHttpEndpoint ++ "/api/secrets"
  let req : HttpReq := ⟨"POST", createURI⟩
  if env.status req ≠ 201 then
    (.error ("Secret has not been correctly created: " ++ env.bodyText req), [req])
  else (.ok (), [req])

/-- `downloadArtifact` of `StartedMicrocksContainer`: one form-urlencoded
POST to `/api/artifact/download`, raising unless the status is 201. -/
def StartedMicrocksContainer.downloadArtifact (c : StartedMicrocksContainer) (env : IOEnv)
    (_remoteArtifactUrl : String) (_mainArtifact : Bool) : Except String Unit × List HttpReq :=
  let downloadURI := c.getHttpEndpoint ++ "/api/artifact/download"
  let req : HttpReq := ⟨"POST", downloadURI⟩
  if env.status req ≠ 201 then
    (.error ("Artifact has not been correctly downloaded: " ++ env.bodyText req), [req])
  else (.ok (), [req])

/-- `downloadAsMainArtifact` of `StartedMicrocksContainer`. -/
def StartedMicrocksContainer.downloadAsMainArtifact (c : StartedMicrocksContainer)
    (env : IOEnv) (remoteArtifactUrl : String) : Except String Unit × List HttpReq :=
  c.downloadArtifact env remoteArtifactUrl true

/-- `downloadAsSecondaryArtifact` of `StartedMicrocksContainer`. -/
def StartedMicrocksContainer.downloadAsSecondaryArtifact (c : StartedMicrocksContainer)
    (env : IOEnv) (remoteArtifactUrl : String) : Except String Unit × List HttpReq :=
  c.downloadArtifact env remoteArtifactUrl false

/-! ## testEndpoint: submission and the fixed-interval poll loop

The conformance-test workflow is `POST /api/tests`, then
`refreshTestResult` (a GET of `/api/tests/{id}`) once, then a loop:
while the last result is in progress and `Date.now() < endDate`
(`endDate` being the clock right after submission plus
`testRequest.timeout + 1000`), `wait(250)` and refresh again.

A `PollEnv` is the server side of that exchange: the status answered to the
submission POST, the job id it returns, and for each `k` the outcome of the
`k`-th GET — `.error status` when the response is non-OK (making
`refreshTestResult` throw) or `.ok result` with the parsed `TestResult`.
`fetchDelay k` is the wall-clock time the `k`-th GET itself takes, so that
the clock observed at the loop guard right after the `k`-th refresh is
`pollClock env k = t1 + Σ (250 + fetchDelay j)`: each iteration advances the
clock by the fixed 250 ms of `wait(250)` plus the fetch duration. -/

structure TestRequest where
  serviceId : String
  testEndpoint : String
  runnerType : String
  timeout : Nat
deriving DecidableEq, Repr

structure PollEnv where
  submitStatus : Nat
  resultId : String
  poll : Nat → Except Nat TestResult
  fetchDelay : Nat → Nat
  t1 : Nat

/-- Error message thrown by `refreshTestResult` on a non-OK response. -/
def pollErrorMsg (status : Nat) : String :=
  "Error while fetching TestResult on Microcks, code: " ++ toString status

/-- Error message thrown by `testEndpoint` when the submission is not
answered with 201. -/
def launchErrorMsg : String :=
  "Couldn't launch on new test on Microcks. Please check Microcks container logs."

/-- `refreshTestResult` of `StartedMicrocksContainer`, applied to the `k`-th
GET of the test result. -/
def refreshTestResult (env : PollEnv) (k : Nat) : Except String TestResult :=
  match env.poll k with
  | .error status => .error (pollErrorMsg status)
  | .ok r => .ok r

/-- The GET request issued by `refreshTestResult`. -/
def refreshRequest (c : StartedMicrocksContainer) (env : PollEnv) : HttpReq :=
  ⟨"GET", c.getHttpEndpoint ++ "/api/tests/" ++ env.resultId⟩

/-- The POST request issued by `testEndpoint` to launch the test. -/
def submitRequest (c : StartedMicrocksContainer) : HttpReq :=
  ⟨"POST", c.getHttpEndpoint ++ "/api/tests"⟩

/-- `Date.now()` as observed at the loop guard right after the `k`-th
refresh: the initial instant `t1`, advanced per iteration by the fixed
250 ms delay of `wait(250)` plus the duration of the fetch itself. -/
def pollClock (env : PollEnv) : Nat → Nat
  | 0 => env.t1
  | k + 1 => pollClock env k + 250 + env.fetchDelay (k + 1)

/-- The `while (testResult.inProgress && Date.now() < endDate)` loop of
`testEndpoint`, entered after refresh `k`. `fuel` bounds the number of
further iterations the model may unfold (`none` = fuel exhausted; with
enough fuel this never happens, see `testPollLoop_isSome`). On exit it
returns the thrown error or the final result, together with the GET
requests the loop issued. -/
def testPollLoop (c : StartedMicrocksContainer) (env : PollEnv) (endDate : Nat)
    (fuel k : Nat) (testResult : TestResult) :
    Option (Except String TestResult × List HttpReq) :=
  if testResult.inProgress && decide (pollClock env k < endDate) then
    match fuel with
    | 0 => none
    | fuel' + 1 =>
      match env.poll (k + 1) with
      | .error status => some (.error (pollErrorMsg status), [refreshRequest c env])
      | .ok r =>
        (testPollLoop c env endDate fuel' (k + 1) r).map
          (fun p => (p.1, refreshRequest c env :: p.2))
  else some (.ok testResult, [])

/-- `testEndpoint` of `StartedMicrocksContainer`: submit the test, and on
status 201 compute `endDate := t0 + testRequest.timeout + 1000` (where `t0`
is `Date.now()` at submission completion), refresh once and run the poll
loop. Returns the outcome and every HTTP request issued by the call. -/
def testEndpointRun (c : StartedMicrocksContainer) (env : PollEnv) (t0 : Nat) (fuel : Nat)
    (testRequest : TestRequest) : Option (Except String TestResult × List HttpReq) :=
  if env.submitStatus = 201 then
    let endDate := t0 + testRequest.timeout + 1000
    match env.poll 0 with
    | .error status =>
        some (.error (pollErrorMsg status), [submitRequest c, refreshRequest c env])
    | .ok r =>
        (testPollLoop c env endDate fuel 0 r).map
          (fun p => (p.1, submitRequest c :: refreshRequest c env :: p.2))
  else some (.error launchErrorMsg, [submitRequest c])

/-! ## MicrocksContainer: registered artifacts and startup sequence -/

/-- The configuration a `MicrocksContainer` accumulates before `start()`:
the image name and the six registration lists. -/
structure MicrocksContainer where
  imageName : String
  snapshots : List String := []
  mainArtifacts : List String := []
  secondaryArtifacts : List String := []
  mainRemoteArtifacts : List String := []
  secondaryRemoteArtifacts : List String := []
  secrets : List Secret := []
deriving DecidableEq, Repr

/-- `withMainArtifacts` of `MicrocksContainer` (`concat`). -/
def MicrocksContainer.withMainArtifacts (c : MicrocksContainer)
    (artifacts : List String) : MicrocksContainer :=
  { c with mainArtifacts := c.mainArtifacts ++ artifacts }

/-- `withSecondaryArtifacts` of `MicrocksContainer`. -/
def MicrocksContainer.withSecondaryArtifacts (c : MicrocksContainer)
    (artifacts : List String) : MicrocksContainer :=
  { c with secondaryArtifacts := c.secondaryArtifacts ++ artifacts }

/-- `withMainRemoteArtifacts` of `MicrocksContainer`. -/
def MicrocksContainer.withMainRemoteArtifacts (c : MicrocksContainer)
    (remoteArtifactUrls : List String) : MicrocksContainer :=
  { c with mainRemoteArtifacts := c.mainRemoteArtifacts ++ remoteArtifactUrls }

/-- `withSecondaryRemoteArtifacts` of `MicrocksContainer`. -/
def MicrocksContainer.withSecondaryRemoteArtifacts (c : MicrocksContainer)
    (remoteArtifactUrls : List String) : MicrocksContainer :=
  { c with secondaryRemoteArtifacts := c.secondaryRemoteArtifacts ++ remoteArtifactUrls }

/-- `withSnapshots` of `MicrocksContainer`. -/
def MicrocksContainer.withSnapshots (c : MicrocksContainer)
    (snapshots : List String) : MicrocksContainer :=
  { c with snapshots := c.snapshots ++ snapshots }

/-- `withSecret` of `MicrocksContainer` (`push`). -/
def MicrocksContainer.withSecret (c : MicrocksContainer) (secret : Secret) :
    MicrocksContainer :=
  { c with secrets := c.secrets ++ [secret] }

/-- `getImageName` of `MicrocksContainer`. -/
def MicrocksContainer.getImageName (c : MicrocksContainer) : String :=
  c.imageName

/-- One awaited upload performed by `MicrocksContainer.start` on the started
container. -/
inductive StartupOp where
  | importSnapshot (path : String)
  | downloadAsMainArtifact (url : String)
  | downloadAsSecondaryArtifact (url : String)
  | importAsMainArtifact (path : String)
  | importAsSecondaryArtifact (path : String)
  | createSecret (secret : Secret)
deriving DecidableEq, Repr

/-- The sequence of uploads `MicrocksContainer.start` performs, in the order
of its six `for` loops: snapshots, then main remote artifacts, then
secondary remote artifacts, then main local artifacts, then secondary local
artifacts, then secrets; each loop walks its list front to back. -/
def MicrocksContainer.startSequence (c : MicrocksContainer) : List StartupOp :=
  c.snapshots.map StartupOp.importSnapshot ++
  c.mainRemoteArtifacts.map StartupOp.downloadAsMainArtifact ++
  c.secondaryRemoteArtifacts.map StartupOp.downloadAsSecondaryArtifact ++
  c.mainArtifacts.map StartupOp.importAsMainArtifact ++
  c.secondaryArtifacts.map StartupOp.importAsSecondaryArtifact ++
  c.secrets.map StartupOp.createSecret

/-- Sequential awaited execution of startup uploads: each operation is
awaited before the next starts, and a rejection aborts the remainder.
Returns the outcome and the operations actually performed, in order. -/
def runStartOps (exec : StartupOp → Except String Unit) :
    List StartupOp → Except String Unit × List StartupOp
  | [] => (.ok (), [])
  | op :: rest =>
    match exec op with
    | .error e => (.error e, [op])
    | .ok _ =>
      let r := runStartOps exec rest
      (r.1, op :: r.2)

/-- `MicrocksContainer.start`, observed through the uploads it performs once
the container is up: the registered operations executed sequentially in the
order of `startSequence`. -/
def MicrocksContainer.startUploads (c : MicrocksContainer)
    (exec : StartupOp → Except String Unit) : Except String Unit × List StartupOp :=
  runStartOps exec c.startSequence

/-! ## MicrocksContainersEnsemble and the async minion -/

structure KafkaConnection where
  bootstrapServers : String
deriving DecidableEq, Repr

structure AmazonServiceConnection where
  region : String
  endpointOverride : Option String := none
  accessKey : String
  secretKey : String
deriving DecidableEq, Repr

/-- JavaScript `s.indexOf(sub) != -1`. -/
def strContainsSub (s sub : String) : Bool :=
  (List.range (s.length + 1)).any (fun i => sub.data.isPrefixOf (s.data.drop i))

/-- JavaScript `String.replace(search, repl)` with a string pattern:
replaces only the first occurrence. -/
def replaceFirst (s pattern replacement : String) : String :=
  match s.splitOn pattern with
  | [] => s
  | [x] => x
  | x :: rest => x ++ replacement ++ String.intercalate pattern rest

/-- The configuration a `MicrocksAsyncMinionContainer` accumulates: its
image, the `extraProtocols` accumulator and its environment variables
(`withEnvironment` merges; later pairs override earlier ones). -/
structure MicrocksAsyncMinionContainer where
  image : String
  extraProtocols : String := ""
  environment : List (String × String) := []
deriving DecidableEq, Repr

/-- `withEnvironment` of `GenericContainer` (merge with override — modelled
by appending; a later binding for a key shadows an earlier one). -/
def MicrocksAsyncMinionContainer.withEnvironment (c : MicrocksAsyncMinionContainer)
    (pairs : List (String × String)) : MicrocksAsyncMinionContainer :=
  { c with environment := c.environment ++ pairs }

/-- `addProtocolIfNeeded` of `MicrocksAsyncMinionContainer`. -/
def MicrocksAsyncMinionContainer.addProtocolIfNeeded (c : MicrocksAsyncMinionContainer)
    (protocol : String) : MicrocksAsyncMinionContainer :=
  if strContainsSub c.extraProtocols ("," ++ protocol) then c
  else { c with extraProtocols := c.extraProtocols ++ "," ++ protocol }

/-- `withKafkaConnection` of `MicrocksAsyncMinionContainer`. -/
def MicrocksAsyncMinionContainer.withKafkaConnection (c : MicrocksAsyncMinionContainer)
    (connection : KafkaConnection) : MicrocksAsyncMinionContainer :=
  let c := c.addProtocolIfNeeded "KAFKA"
  c.withEnvironment
    [("ASYNC_PROTOCOLS", c.extraProtocols),
     ("KAFKA_BOOTSTRAP_SERVER", connection.bootstrapServers)]

/-- `withAmazonSQSConnection` of `MicrocksAsyncMinionContainer`. -/
def MicrocksAsyncMinionContainer.withAmazonSQSConnection (c : MicrocksAsyncMinionContainer)
    (connection : AmazonServiceConnection) : MicrocksAsyncMinionContainer :=
  let c := c.addProtocolIfNeeded "SQS"
  let c := c.withEnvironment
    [("ASYNC_PROTOCOLS", c.extraProtocols),
     ("AWS_SQS_REGION", connection.region),
     ("AWS_ACCESS_KEY_ID", connection.accessKey),
     ("AWS_SECRET_ACCESS_KEY", connection.secretKey)]
  match connection.endpointOverride with
  | some endpoint => c.withEnvironment [("AWS_SQS_ENDPOINT", endpoint)]
  | none => c

/-- `withAmazonSNSConnection` of `MicrocksAsyncMinionContainer`. -/
def MicrocksAsyncMinionContainer.withAmazonSNSConnection (c : MicrocksAsyncMinionContainer)
    (connection : AmazonServiceConnection) : MicrocksAsyncMinionContainer :=
  let c := c.addProtocolIfNeeded "SNS"
  let c := c.withEnvironment
    [("ASYNC_PROTOCOLS", c.extraProtocols),
     ("AWS_SNS_REGION", connection.region),
     ("AWS_ACCESS_KEY_ID", connection.accessKey),
     ("AWS_SECRET_ACCESS_KEY", connection.secretKey)]
  match connection.endpointOverride with
  | some endpoint => c.withEnvironment [("AWS_SNS_ENDPOINT", endpoint)]
  | none => c

/-- The configuration of a `MicrocksContainersEnsemble`: its Microcks
container, the optional Postman runtime image and the optional async minion
container. -/
structure MicrocksContainersEnsemble where
  microcks : MicrocksContainer
  postmanImage : Option String := none
  asyncMinion : Option MicrocksAsyncMinionContainer := none
deriving DecidableEq, Repr

/-- `withAsyncFeature` of `MicrocksContainersEnsemble`: derive the minion
image from the Microcks image unless one is given, strip a -native suffix,
and create the async minion container. -/
def MicrocksContainersEnsemble.withAsyncFeature (e : MicrocksContainersEnsemble)
    (image : Option String := none) : MicrocksContainersEnsemble :=
  let asyncMinionImage :=
    match image with
    | some img => img
    | none => replaceFirst e.microcks.getImageName "microcks-uber" "microcks-uber-async-minion"
  let asyncMinionImage :=
    if asyncMinionImage.endsWith "-native" then
      asyncMinionImage.dropRight ("-native".length)
    else asyncMinionImage
  { e with asyncMinion := some { image := asyncMinionImage } }

/-- Error thrown by the ensemble connection helpers before the async feature
is enabled. -/
def asyncFeatureErrorMsg : String := "Async feature must have been enabled first"

/-- `withKafkaConnection` of `MicrocksContainersEnsemble`: throws unless
`withAsyncFeature` was called, else configures the minion and returns the
ensemble for chaining. -/
def MicrocksContainersEnsemble.withKafkaConnection (e : MicrocksContainersEnsemble)
    (connection : KafkaConnection) : Except String MicrocksContainersEnsemble :=
  match e.asyncMinion with
  | none => .error asyncFeatureErrorMsg
  | some minion => .ok { e with asyncMinion := some (minion.withKafkaConnection connection) }

/-- `withAmazonSQSConnection` of `MicrocksContainersEnsemble`. -/
def MicrocksContainersEnsemble.withAmazonSQSConnection (e : MicrocksContainersEnsemble)
    (connection : AmazonServiceConnection) : Except String MicrocksContainersEnsemble :=
  match e.asyncMinion with
  | none => .error asyncFeatureErrorMsg
  | some minion =>
      .ok { e with asyncMinion := some (minion.withAmazonSQSConnection connection) }

/-- `withAmazonSNSConnection` of `MicrocksContainersEnsemble`. -/
def MicrocksContainersEnsemble.withAmazonSNSConnection (e : MicrocksContainersEnsemble)
    (connection : AmazonServiceConnection) : Except String MicrocksContainersEnsemble :=
  match e.asyncMinion with
  | none => .error asyncFeatureErrorMsg
  | some minion =>
      .ok { e with asyncMinion := some (minion.withAmazonSNSConnection connection) }

/-! ## Helper lemmas -/

/-- Two successive global single-character removals equal one pass removing
either kind of character. -/
theorem stripAll_stripAll (p q : Char → Bool) (s : String) :
    stripAll p (stripAll q s) = String.mk (s.data.filter (fun c => !(q c || p c))) := by
  unfold stripAll
  congr 1
  rw [List.filter_filter]
  apply List.filter_congr
  intro a _
  cases hq : q a <;> cases hp : p a <;> simp [hq, hp]

/-! ## Claim theorems: pure string formatting -/

/-- Claim C3: for all strings `service` and `version`, the SOAP, REST and
GraphQL mock-endpoint builders return exactly
`http://{host}:{httpPort}/{protocol}/{service}/{version}` with protocol
`soap`, `rest` and `graphql` respectively, inserting `service` and `version`
verbatim. -/
theorem mock_endpoint_templates (c : StartedMicrocksContainer) (service version : String) :
    c.getSoapMockEndpoint service version =
      "http://" ++ c.host ++ ":" ++ toString c.httpPort ++ "/soap/" ++ service ++ "/" ++ version ∧
    c.getRestMockEndpoint service version =
      "http://" ++ c.host ++ ":" ++ toString c.httpPort ++ "/rest/" ++ service ++ "/" ++ version ∧
    c.getGraphQLMockEndpoint service version =
      "http://" ++ c.host ++ ":" ++ toString c.httpPort ++ "/graphql/" ++ service ++ "/" ++ version :=
  ⟨rfl, rfl, rfl⟩

/-- Claim C4: `getKafkaMockTopic` returns the service name with all
whitespace and all hyphen characters removed, then `-`, then the version
verbatim, then `-`, then the operation name with every slash replaced by a
hyphen — the operation name being first truncated to the token after the
first space when it contains one; the Amazon SQS/SNS destination builder
additionally removes whitespace and dots from the version. -/
theorem async_destination_templates (service version operationName : String) :
    getKafkaMockTopic service version operationName =
      String.mk (service.data.filter (fun c => !(isJsWhitespace c || c == '-'))) ++ "-" ++
        version ++ "-" ++
        replaceCharAll '/' '-'
          (if operationName.contains ' ' then (operationName.splitOn " ").getD 1 ""
           else operationName) ∧
    getAmazonServiceMockDestination service version operationName =
      String.mk (service.data.filter (fun c => !(isJsWhitespace c || c == '-'))) ++ "-" ++
        String.mk (version.data.filter (fun c => !(isJsWhitespace c || c == '.'))) ++ "-" ++
        replaceCharAll '/' '-'
          (if operationName.contains ' ' then (operationName.splitOn " ").getD 1 ""
           else operationName) ∧
    getAmazonSQSMockQueue service version operationName =
      getAmazonServiceMockDestination service version operationName ∧
    getAmazonSNSMockTopic service version operationName =
      getAmazonServiceMockDestination service version operationName := by
  refine ⟨?_, ?_, rfl, rfl⟩
  · unfold getKafkaMockTopic splitSecondToken
    rw [stripAll_stripAll]
    rfl
  · unfold getAmazonServiceMockDestination splitSecondToken
    rw [stripAll_stripAll, stripAll_stripAll]
    rfl

/-- Claim C5: `getMessagesForTestCase` and `getEventMessagesForTestCase`
query the server with the composite test-case identifier
`{testResult.id}-{testResult.testNumber}-{enc(operationName)}`, where `enc`
replaces every slash by `!` and then applies `encodeURIComponent`. -/
theorem testcase_identifier_urls (c : StartedMicrocksContainer) (testResult : TestResult)
    (operationName : String) :
    c.getMessagesForTestCaseUrl testResult operationName =
      c.getHttpEndpoint ++ "/api/tests/" ++ testResult.id ++ "/messages/" ++
        (testResult.id ++ "-" ++ toString testResult.testNumber ++ "-" ++
          encodeURIComponent (replaceCharAll '/' '!' operationName)) ∧
    c.getEventMessagesForTestCaseUrl testResult operationName =
      c.getHttpEndpoint ++ "/api/tests/" ++ testResult.id ++ "/events/" ++
        (testResult.id ++ "-" ++ toString testResult.testNumber ++ "-" ++
          encodeURIComponent (replaceCharAll '/' '!' operationName)) :=
  ⟨rfl, rfl⟩

/-! ## Poll loop lemmas -/

/-- Every request issued by the poll loop is the refresh GET. -/
theorem testPollLoop_requests (c : StartedMicrocksContainer) (env : PollEnv) (endDate : Nat) :
    ∀ (fuel k : Nat) (tr : TestResult) (x : Except String TestResult × List HttpReq),
      testPollLoop c env endDate fuel k tr = some x →
      ∀ r ∈ x.2, r = refreshRequest c env := by
  intro fuel
  induction fuel with
  | zero =>
    intro k tr x h r hr
    unfold testPollLoop at h
    split at h
    · exact absurd h (by simp)
    · cases h
      simp at hr
  | succ f ih =>
    intro k tr x h r hr
    unfold testPollLoop at h
    split at h
    · cases hp : env.poll (k + 1) with
      | error s =>
        rw [hp] at h
        cases h
        simp at hr
        exact hr
      | ok next =>
        rw [hp] at h
        rw [Option.map_eq_some'] at h
        obtain ⟨p, hp', hmap⟩ := h
        subst hmap
        simp at hr
        rcases hr with hr | hr
        · exact hr
        · exact ih (k + 1) next p hp' r hr
    · cases h
      simp at hr

/-- An `.ok` exit of the poll loop means the guard failed at the final
check: the result is no longer in progress, or the deadline had been
reached. The clock index of that final check is the entry index plus the
number of loop GETs. -/
theorem testPollLoop_ok_exit (c : StartedMicrocksContainer) (env : PollEnv) (endDate : Nat) :
    ∀ (fuel k : Nat) (tr res : TestResult) (l : List HttpReq),
      testPollLoop c env endDate fuel k tr = some (.ok res, l) →
      res.inProgress = false ∨ endDate ≤ pollClock env (k + l.length) := by
  intro fuel
  induction fuel with
  | zero =>
    intro k tr res l h
    unfold testPollLoop at h
    split at h
    · exact absurd h (by simp)
    · rename_i hguard
      simp only [Option.some.injEq, Prod.mk.injEq, Except.ok.injEq] at h
      obtain ⟨h1, h2⟩ := h
      subst h1
      subst h2
      rw [Bool.and_eq_true] at hguard
      push_neg at hguard
      by_cases hb : tr.inProgress = true
      · have hcl := hguard hb
        simp at hcl
        exact Or.inr (by simpa using hcl)
      · simp at hb
        exact Or.inl hb
  | succ f ih =>
    intro k tr res l h
    unfold testPollLoop at h
    split at h
    · cases hp : env.poll (k + 1) with
      | error s =>
        rw [hp] at h
        exact absurd h (by simp)
      | ok next =>
        rw [hp] at h
        rw [Option.map_eq_some'] at h
        obtain ⟨⟨p1, p2⟩, hp', hmap⟩ := h
        simp only [Prod.mk.injEq] at hmap
        obtain ⟨h1, h2⟩ := hmap
        subst h1
        subst h2
        have := ih (k + 1) next res p2 hp'
        rcases this with hdone | hclock
        · exact Or.inl hdone
        · refine Or.inr ?_
          have harith : k + (p2.length + 1) = k + 1 + p2.length := by omega
          rw [List.length_cons, harith]
          exact hclock
    · rename_i hguard
      simp only [Option.some.injEq, Prod.mk.injEq, Except.ok.injEq] at h
      obtain ⟨h1, h2⟩ := h
      subst h1
      subst h2
      rw [Bool.and_eq_true] at hguard
      push_neg at hguard
      by_cases hb : tr.inProgress = true
      · have hcl := hguard hb
        simp at hcl
        exact Or.inr (by simpa using hcl)
      · simp at hb
        exact Or.inl hb

/-- Clock recurrence: one loop iteration advances the observed clock by the
fixed 250 ms wait plus the duration of the next fetch. -/
theorem pollClock_succ (env : PollEnv) (k : Nat) :
    pollClock env (k + 1) = pollClock env k + 250 + env.fetchDelay (k + 1) := rfl

/-- Unfolding of one loop iteration when the guard holds. -/
theorem testPollLoop_step (c : StartedMicrocksContainer) (env : PollEnv) (endDate f k : Nat)
    (tr : TestResult) (h : (tr.inProgress && decide (pollClock env k < endDate)) = true) :
    testPollLoop c env endDate (f + 1) k tr =
      match env.poll (k + 1) with
      | .error status => some (.error (pollErrorMsg status), [refreshRequest c env])
      | .ok r =>
        (testPollLoop c env endDate f (k + 1) r).map
          (fun p => (p.1, refreshRequest c env :: p.2)) := by
  conv_lhs => rw [testPollLoop]
  rw [h]
  rfl

/-- One iteration whose refresh succeeds recurses on the fresh result. -/
theorem testPollLoop_step_ok (c : StartedMicrocksContainer) (env : PollEnv) (endDate f k : Nat)
    (tr r : TestResult) (hguard : (tr.inProgress && decide (pollClock env k < endDate)) = true)
    (hp : env.poll (k + 1) = .ok r) :
    testPollLoop c env endDate (f + 1) k tr =
      (testPollLoop c env endDate f (k + 1) r).map
        (fun p => (p.1, refreshRequest c env :: p.2)) := by
  rw [testPollLoop_step c env endDate f k tr hguard, hp]

/-- One iteration whose refresh gets a non-OK response propagates the
thrown error. -/
theorem testPollLoop_step_err (c : StartedMicrocksContainer) (env : PollEnv) (endDate f k : Nat)
    (tr : TestResult) (s : Nat)
    (hguard : (tr.inProgress && decide (pollClock env k < endDate)) = true)
    (hp : env.poll (k + 1) = .error s) :
    testPollLoop c env endDate (f + 1) k tr =
      some (.error (pollErrorMsg s), [refreshRequest c env]) := by
  rw [testPollLoop_step c env endDate f k tr hguard, hp]

/-- The loop exits at once when the guard fails. -/
theorem testPollLoop_stop (c : StartedMicrocksContainer) (env : PollEnv) (endDate fuel k : Nat)
    (tr : TestResult) (h : (tr.inProgress && decide (pollClock env k < endDate)) = false) :
    testPollLoop c env endDate fuel k tr = some (.ok tr, []) := by
  conv_lhs => rw [testPollLoop.eq_def]
  rw [h]
  rfl

/-- Exact exit of the poll loop: when every refresh up to `m` succeeds, the
guard holds strictly before `m` and fails at `m`, the loop entered at `k`
returns the `m`-th result after issuing `m - k` further GETs. -/
theorem testPollLoop_reaches (c : StartedMicrocksContainer) (env : PollEnv) (endDate : Nat)
    (results : Nat → TestResult) (m : Nat)
    (hpoll : ∀ j, j ≤ m → env.poll j = .ok (results j))
    (hbefore : ∀ j, j < m → (results j).inProgress = true ∧ pollClock env j < endDate)
    (hexit : (results m).inProgress = false ∨ endDate ≤ pollClock env m) :
    ∀ (fuel k : Nat), k ≤ m → m - k ≤ fuel →
      testPollLoop c env endDate fuel k (results k) =
        some (.ok (results m), List.replicate (m - k) (refreshRequest c env)) := by
  have hstop : ∀ fuel, testPollLoop c env endDate fuel m (results m) =
      some (.ok (results m), []) := by
    intro fuel
    apply testPollLoop_stop
    rcases hexit with hdone | hlate
    · simp [hdone]
    · simp [Nat.not_lt.mpr hlate]
  intro fuel
  induction fuel with
  | zero =>
    intro k hk hfuel
    have hkm : k = m := by omega
    subst hkm
    simpa using hstop 0
  | succ f ih =>
    intro k hk hfuel
    by_cases hkm : k = m
    · subst hkm
      simpa using hstop (f + 1)
    · have hklt : k < m := by omega
      have hguard : ((results k).inProgress && decide (pollClock env k < endDate)) = true := by
        obtain ⟨h1, h2⟩ := hbefore k hklt
        simp [h1, h2]
      rw [testPollLoop_step_ok c env endDate f k (results k) (results (k + 1)) hguard
        (hpoll (k + 1) (by omega))]
      rw [ih (k + 1) (by omega) (by omega)]
      simp only [Option.map_some']
      have harith : m - k = (m - (k + 1)) + 1 := by omega
      rw [harith, List.replicate_succ]

/-- A non-OK refresh aborts the poll loop at once: if the guard passes up to
just before the `p`-th refresh and that refresh returns a non-OK status, the
error propagates and exactly `p - k` further GETs were issued — none after
the failing one. -/
theorem testPollLoop_pollError (c : StartedMicrocksContainer) (env : PollEnv) (endDate : Nat)
    (results : Nat → TestResult) (p s : Nat)
    (hpoll : ∀ j, j < p → env.poll j = .ok (results j))
    (hbefore : ∀ j, j < p → (results j).inProgress = true ∧ pollClock env j < endDate)
    (herr : env.poll p = .error s) :
    ∀ (fuel k : Nat), k < p → p - k ≤ fuel →
      testPollLoop c env endDate fuel k (results k) =
        some (.error (pollErrorMsg s), List.replicate (p - k) (refreshRequest c env)) := by
  intro fuel
  induction fuel with
  | zero =>
    intro k hk hfuel
    omega
  | succ f ih =>
    intro k hk hfuel
    have hguard : ((results k).inProgress && decide (pollClock env k < endDate)) = true := by
      obtain ⟨h1, h2⟩ := hbefore k hk
      simp [h1, h2]
    by_cases hkp : k + 1 = p
    · rw [testPollLoop_step_err c env endDate f k (results k) s hguard (by rw [hkp]; exact herr)]
      have harith : p - k = 1 := by omega
      rw [harith]
      simp
    · rw [testPollLoop_step_ok c env endDate f k (results k) (results (k + 1)) hguard
        (hpoll (k + 1) (by omega))]
      rw [ih (k + 1) (by omega) (by omega)]
      simp only [Option.map_some']
      have harith : p - k = (p - (k + 1)) + 1 := by omega
      rw [harith, List.replicate_succ]

/-- Fuel sufficiency: each iteration advances the clock by at least the
fixed 250 ms delay, so `endDate` fuel always suffices for the loop to
return. -/
theorem testPollLoop_isSome (c : StartedMicrocksContainer) (env : PollEnv) (endDate : Nat) :
    ∀ (fuel k : Nat) (tr : TestResult), endDate ≤ fuel + pollClock env k →
      (testPollLoop c env endDate fuel k tr).isSome := by
  intro fuel
  induction fuel with
  | zero =>
    intro k tr hle
    rw [testPollLoop_stop c env endDate 0 k tr (by simp; omega)]
    simp
  | succ f ih =>
    intro k tr hle
    by_cases hguard : (tr.inProgress && decide (pollClock env k < endDate)) = true
    · cases hp : env.poll (k + 1) with
      | error s =>
        rw [testPollLoop_step_err c env endDate f k tr s hguard hp]
        simp
      | ok next =>
        rw [testPollLoop_step_ok c env endDate f k tr next hguard hp]
        rw [Option.isSome_map']
        apply ih
        have hstep := pollClock_succ env k
        omega
    · rw [testPollLoop_stop c env endDate (f + 1) k tr (by simpa using hguard)]
      simp

/-- `testEndpoint` when the submission is not answered with 201: the error
is thrown right away, after the single submission POST. -/
theorem testEndpointRun_submitFail (c : StartedMicrocksContainer) (env : PollEnv)
    (t0 fuel : Nat) (testRequest : TestRequest) (h : env.submitStatus ≠ 201) :
    testEndpointRun c env t0 fuel testRequest =
      some (.error launchErrorMsg, [submitRequest c]) := by
  unfold testEndpointRun
  rw [if_neg h]

/-- `testEndpoint` when the submission succeeds but the very first refresh
gets a non-OK response. -/
theorem testEndpointRun_firstPollErr (c : StartedMicrocksContainer) (env : PollEnv)
    (t0 fuel : Nat) (testRequest : TestRequest) (s : Nat)
    (h : env.submitStatus = 201) (hp : env.poll 0 = .error s) :
    testEndpointRun c env t0 fuel testRequest =
      some (.error (pollErrorMsg s), [submitRequest c, refreshRequest c env]) := by
  unfold testEndpointRun
  rw [if_pos h]
  simp only [hp]

/-- `testEndpoint` when the submission succeeds and the first refresh parses:
the outcome is that of the poll loop started on the first result, with the
submission POST and first GET prepended to the request log. -/
theorem testEndpointRun_ok (c : StartedMicrocksContainer) (env : PollEnv)
    (t0 fuel : Nat) (testRequest : TestRequest) (r : TestResult)
    (h : env.submitStatus = 201) (hp : env.poll 0 = .ok r) :
    testEndpointRun c env t0 fuel testRequest =
      (testPollLoop c env (t0 + testRequest.timeout + 1000) fuel 0 r).map
        (fun p => (p.1, submitRequest c :: refreshRequest c env :: p.2)) := by
  unfold testEndpointRun
  rw [if_pos h]
  simp only [hp]

/-! ## Claim theorems: the test poller -/

/-- Claim C8: after a successful submission (201), `testEndpoint` runs a
poll loop that repeatedly waits the fixed 250 ms delay (built into
`pollClock`) and re-fetches the test status, terminating exactly at the
first fetched result that is no longer in progress or at the first guard
check at which the wall-clock deadline `t0 + testRequest.timeout + 1000`
has elapsed, whichever occurs first; moreover with `endDate` fuel the loop
always returns (the deadline forces termination). -/
theorem testEndpoint_poll_loop_termination
    (c : StartedMicrocksContainer) (env : PollEnv) (t0 fuel : Nat) (testRequest : TestRequest)
    (results : Nat → TestResult) (m : Nat)
    (hsubmit : env.submitStatus = 201)
    (hpoll : ∀ j, j ≤ m → env.poll j = .ok (results j))
    (hbefore : ∀ j, j < m →
      (results j).inProgress = true ∧ pollClock env j < t0 + testRequest.timeout + 1000)
    (hexit : (results m).inProgress = false ∨
      t0 + testRequest.timeout + 1000 ≤ pollClock env m)
    (hfuel : m ≤ fuel) :
    testEndpointRun c env t0 fuel testRequest =
      some (.ok (results m),
        submitRequest c :: List.replicate (m + 1) (refreshRequest c env)) ∧
    (testEndpointRun c env t0 (t0 + testRequest.timeout + 1000) testRequest).isSome := by
  constructor
  · rw [testEndpointRun_ok c env t0 fuel testRequest (results 0) hsubmit (hpoll 0 (by omega))]
    rw [testPollLoop_reaches c env _ results m hpoll hbefore hexit fuel 0 (by omega) (by omega)]
    simp only [Option.map_some', Nat.sub_zero]
    rw [List.replicate_succ]
  · rw [testEndpointRun_ok c env t0 _ testRequest (results 0) hsubmit (hpoll 0 (by omega))]
    rw [Option.isSome_map']
    apply testPollLoop_isSome
    omega

/-- Claim C1 (amended): whenever `testEndpoint` returns normally, it does so
once the job has completed or the wall-clock deadline has been reached,
whichever happens first — but the `inProgress` flag of the returned result
is only guaranteed false when the job completed; when the deadline was
reached first, the result is the last polled status and its flag may still
be true. -/
theorem testEndpoint_result_flag
    (c : StartedMicrocksContainer) (env : PollEnv) (t0 fuel : Nat) (testRequest : TestRequest)
    (res : TestResult) (l : List HttpReq)
    (h : testEndpointRun c env t0 fuel testRequest = some (.ok res, l)) :
    res.inProgress = false ∨
      t0 + testRequest.timeout + 1000 ≤
        pollClock env (l.countP (fun r => r.method == "GET") - 1) := by
  by_cases hs : env.submitStatus = 201
  · cases hp : env.poll 0 with
    | error s =>
      rw [testEndpointRun_firstPollErr c env t0 fuel testRequest s hs hp] at h
      simp at h
    | ok r0 =>
      rw [testEndpointRun_ok c env t0 fuel testRequest r0 hs hp] at h
      rw [Option.map_eq_some'] at h
      obtain ⟨⟨p1, p2⟩, hloop, hmap⟩ := h
      simp only [Prod.mk.injEq] at hmap
      obtain ⟨h1, h2⟩ := hmap
      subst h1
      subst h2
      have hflag := testPollLoop_ok_exit c env _ fuel 0 r0 res p2 hloop
      rcases hflag with hdone | hlate
      · exact Or.inl hdone
      · refine Or.inr ?_
        have hall := testPollLoop_requests c env _ fuel 0 r0 (.ok res, p2) hloop
        have hcount :
            ((submitRequest c :: refreshRequest c env :: p2).countP
              (fun r => r.method == "GET")) = p2.length + 1 := by
          rw [List.countP_cons, List.countP_cons]
          have hzero : p2.countP (fun r => r.method == "GET") = p2.length := by
            apply List.countP_eq_length.mpr
            intro a ha
            rw [hall a ha]
            rfl
          rw [hzero]
          rfl
        rw [hcount]
        simpa using hlate
  · rw [testEndpointRun_submitFail c env t0 fuel testRequest hs] at h
    simp at h

/-- Claim C7: a non-OK response while polling makes `refreshTestResult`
throw, and the error propagates out of `testEndpoint` at once — the GETs
issued are exactly the `p + 1` polls up to and including the failing one,
none after it. -/
theorem refresh_failure_stops_polling
    (c : StartedMicrocksContainer) (env : PollEnv) (t0 fuel : Nat) (testRequest : TestRequest)
    (results : Nat → TestResult) (p s : Nat)
    (hsubmit : env.submitStatus = 201)
    (hpoll : ∀ j, j < p → env.poll j = .ok (results j))
    (hbefore : ∀ j, j < p →
      (results j).inProgress = true ∧ pollClock env j < t0 + testRequest.timeout + 1000)
    (herr : env.poll p = .error s)
    (hfuel : p ≤ fuel) :
    refreshTestResult env p = .error (pollErrorMsg s) ∧
    testEndpointRun c env t0 fuel testRequest =
      some (.error (pollErrorMsg s),
        submitRequest c :: List.replicate (p + 1) (refreshRequest c env)) := by
  constructor
  · unfold refreshTestResult
    rw [herr]
  · by_cases hp0 : p = 0
    · subst hp0
      rw [testEndpointRun_firstPollErr c env t0 fuel testRequest s hsubmit herr]
      rfl
    · have hppos : 0 < p := by omega
      rw [testEndpointRun_ok c env t0 fuel testRequest (results 0) hsubmit (hpoll 0 hppos)]
      rw [testPollLoop_pollError c env _ results p s hpoll hbefore herr fuel 0 hppos (by omega)]
      simp only [Option.map_some', Nat.sub_zero]
      rw [List.replicate_succ]

/-! ## Concrete instances used by counterexamples and witnesses -/

/-- A concrete started container. -/
def localContainer : StartedMicrocksContainer := ⟨"localhost", 8080, 9090⟩

/-- A concrete test result that is still in progress. -/
def inProgressResult : TestResult := ⟨"cex-test", 1, 1, true, false, 0⟩

/-- A concrete completed test result. -/
def completedResult : TestResult := ⟨"w-test", 1, 1, false, true, 7⟩

/-- A server that accepts the submission but reports the job in progress
forever; each fetch is instantaneous and the first guard check happens at
clock 0. -/
def stuckServerEnv : PollEnv := ⟨201, "cex-test", fun _ => .ok inProgressResult, fun _ => 0, 0⟩

/-- A server whose job is already complete at the first refresh. -/
def promptServerEnv : PollEnv := ⟨201, "w-test", fun _ => .ok completedResult, fun _ => 0, 0⟩

/-- A server whose job completes at the second refresh. -/
def twoStepEnv : PollEnv :=
  ⟨201, "w-test", fun k => if k = 0 then .ok inProgressResult else .ok completedResult,
   fun _ => 0, 0⟩

/-- A server whose second refresh gets HTTP 500. -/
def failingPollEnv : PollEnv :=
  ⟨201, "w-test", fun k => if k = 0 then .ok inProgressResult else .error 500, fun _ => 0, 0⟩

/-- A concrete test request with timeout 0 (deadline `t0 + 1000`). -/
def zeroTimeoutRequest : TestRequest := ⟨"API:1.0", "http://app:8080/api", "HTTP", 0⟩

/-- Claim C1 as stated fails on the code: with a submission the server
accepts (201) and a job that never completes, `testEndpoint` does return
once the wall-clock deadline is reached (after 5 polls here, deadline
1000 ms, polls at 0, 250, 500, 750, 1000 ms), but the returned
`TestResult`'s `inProgress` flag is still `true` — the loop exits on the
deadline without the flag ever becoming false. -/
theorem testEndpoint_inProgress_cex :
    stuckServerEnv.submitStatus = 201 ∧
    testEndpointRun localContainer stuckServerEnv 0 10 zeroTimeoutRequest =
      some (.ok inProgressResult,
        submitRequest localContainer ::
          List.replicate 5 (refreshRequest localContainer stuckServerEnv)) ∧
    inProgressResult.inProgress = true :=
  ⟨rfl, rfl, rfl⟩

/-- Witness for the amended claim C1 at a concrete completing server. -/
theorem testEndpoint_result_flag_witness :
    testEndpointRun localContainer promptServerEnv 0 5 zeroTimeoutRequest =
      some (.ok completedResult,
        [submitRequest localContainer, refreshRequest localContainer promptServerEnv]) ∧
    (completedResult.inProgress = false ∨
      0 + zeroTimeoutRequest.timeout + 1000 ≤
        pollClock promptServerEnv
          (([submitRequest localContainer,
             refreshRequest localContainer promptServerEnv].countP
              (fun r => r.method == "GET")) - 1)) :=
  ⟨rfl, testEndpoint_result_flag localContainer promptServerEnv 0 5 zeroTimeoutRequest
    completedResult _ rfl⟩

/-- Witness for claim C8 at a concrete server completing on the second
refresh. -/
theorem testEndpoint_poll_loop_termination_witness :
    testEndpointRun localContainer twoStepEnv 0 5 zeroTimeoutRequest =
      some (.ok completedResult,
        submitRequest localContainer ::
          List.replicate 2 (refreshRequest localContainer twoStepEnv)) ∧
    (testEndpointRun localContainer twoStepEnv 0
      (0 + zeroTimeoutRequest.timeout + 1000) zeroTimeoutRequest).isSome :=
  testEndpoint_poll_loop_termination localContainer twoStepEnv 0 5 zeroTimeoutRequest
    (fun k => if k = 0 then inProgressResult else completedResult) 1
    rfl
    (by intro j hj; interval_cases j <;> rfl)
    (by intro j hj; interval_cases j; exact ⟨rfl, by decide⟩)
    (Or.inl rfl)
    (by omega)

/-- Witness for claim C7 at a concrete server failing on the second
refresh. -/
theorem refresh_failure_stops_polling_witness :
    refreshTestResult failingPollEnv 1 = .error (pollErrorMsg 500) ∧
    testEndpointRun localContainer failingPollEnv 0 5 zeroTimeoutRequest =
      some (.error (pollErrorMsg 500),
        submitRequest localContainer ::
          List.replicate 2 (refreshRequest localContainer failingPollEnv)) :=
  refresh_failure_stops_polling localContainer failingPollEnv 0 5 zeroTimeoutRequest
    (fun _ => inProgressResult) 1 500
    rfl
    (by intro j hj; interval_cases j; rfl)
    (by intro j hj; interval_cases j; exact ⟨rfl, by decide⟩)
    rfl
    (by omega)

/-! ## Claim theorems: filesystem check before upload -/

/-- `importArtifact` when `stat` rejects: the rejection propagates with no
request issued. -/
theorem importArtifact_statNone (c : StartedMicrocksContainer) (env : IOEnv)
    (p : String) (m : Bool) (h : env.stat p = none) :
    c.importArtifact env p m =
      (.error ("ENOENT: no such file or directory, stat " ++ p), []) := by
  unfold StartedMicrocksContainer.importArtifact StartedMicrocksContainer.isFileCheck
  rw [h]

/-- `importArtifact` when the path exists but is not a regular file. -/
theorem importArtifact_statNotFile (c : StartedMicrocksContainer) (env : IOEnv)
    (p : String) (m : Bool) (st : FileStats) (hst : env.stat p = some st)
    (hfile : st.isFile = false) :
    c.importArtifact env p m =
      (.error ("Artifact " ++ p ++ "  does not exist or can't be read"), []) := by
  obtain ⟨b⟩ := st
  cases b
  · unfold StartedMicrocksContainer.importArtifact StartedMicrocksContainer.isFileCheck
    rw [hst]
  · simp at hfile

/-- `importSnapshotInternal` when `stat` rejects. -/
theorem importSnapshot_statNone (c : StartedMicrocksContainer) (env : IOEnv)
    (p : String) (h : env.stat p = none) :
    c.importSnapshot env p =
      (.error ("ENOENT: no such file or directory, stat " ++ p), []) := by
  unfold StartedMicrocksContainer.importSnapshot StartedMicrocksContainer.importSnapshotInternal
    StartedMicrocksContainer.isFileCheck
  rw [h]

/-- `importSnapshotInternal` when the path is not a regular file. -/
theorem importSnapshot_statNotFile (c : StartedMicrocksContainer) (env : IOEnv)
    (p : String) (st : FileStats) (hst : env.stat p = some st)
    (hfile : st.isFile = false) :
    c.importSnapshot env p =
      (.error ("Snapshot " ++ p ++ "  does not exist or can't be read"), []) := by
  obtain ⟨b⟩ := st
  cases b
  · unfold StartedMicrocksContainer.importSnapshot StartedMicrocksContainer.importSnapshotInternal
      StartedMicrocksContainer.isFileCheck
    rw [hst]
  · simp at hfile

/-- Claim C2: for every path that does not name a readable regular file
(`stat` rejects, or resolves to a non-file), `importAsMainArtifact`,
`importAsSecondaryArtifact` and `importSnapshot` raise an error and issue
no HTTP request at all. -/
theorem import_nonfile_raises_before_network
    (c : StartedMicrocksContainer) (env : IOEnv) (p : String)
    (h : env.stat p = none ∨ ∃ st, env.stat p = some st ∧ st.isFile = false) :
    ((∃ e, (c.importAsMainArtifact env p).1 = .error e) ∧
      (c.importAsMainArtifact env p).2 = []) ∧
    ((∃ e, (c.importAsSecondaryArtifact env p).1 = .error e) ∧
      (c.importAsSecondaryArtifact env p).2 = []) ∧
    ((∃ e, (c.importSnapshot env p).1 = .error e) ∧
      (c.importSnapshot env p).2 = []) := by
  have hart : ∀ m : Bool, (∃ e, (c.importArtifact env p m).1 = .error e) ∧
      (c.importArtifact env p m).2 = [] := by
    intro m
    rcases h with hnone | ⟨st, hst, hfile⟩
    · rw [importArtifact_statNone c env p m hnone]
      exact ⟨⟨_, rfl⟩, rfl⟩
    · rw [importArtifact_statNotFile c env p m st hst hfile]
      exact ⟨⟨_, rfl⟩, rfl⟩
  have hsnap : (∃ e, (c.importSnapshot env p).1 = .error e) ∧
      (c.importSnapshot env p).2 = [] := by
    rcases h with hnone | ⟨st, hst, hfile⟩
    · rw [importSnapshot_statNone c env p hnone]
      exact ⟨⟨_, rfl⟩, rfl⟩
    · rw [importSnapshot_statNotFile c env p st hst hfile]
      exact ⟨⟨_, rfl⟩, rfl⟩
  exact ⟨hart true, hart false, hsnap⟩

/-- An external world with no file at any path and a server that accepts
everything with 201. -/
def noFileEnv : IOEnv := ⟨fun _ => none, fun _ => 201, fun _ => "body"⟩

/-- Witness for claim C2 on a missing path. -/
theorem import_nonfile_raises_before_network_witness :
    ((∃ e, (localContainer.importAsMainArtifact noFileEnv "missing.yaml").1 = .error e) ∧
      (localContainer.importAsMainArtifact noFileEnv "missing.yaml").2 = []) ∧
    ((∃ e, (localContainer.importAsSecondaryArtifact noFileEnv "missing.yaml").1 = .error e) ∧
      (localContainer.importAsSecondaryArtifact noFileEnv "missing.yaml").2 = []) ∧
    ((∃ e, (localContainer.importSnapshot noFileEnv "missing.yaml").1 = .error e) ∧
      (localContainer.importSnapshot noFileEnv "missing.yaml").2 = []) :=
  import_nonfile_raises_before_network localContainer noFileEnv "missing.yaml" (Or.inl rfl)

/-! ## Claim theorems: status checks and single requests -/

/-- The multipart upload POST issued by `importArtifact`. -/
def uploadRequest (c : StartedMicrocksContainer) (mainArtifact : Bool) : HttpReq :=
  ⟨"POST", c.getHttpEndpoint ++ "/api/artifact/upload" ++
    (if mainArtifact then "" else "?mainArtifact=false")⟩

/-- The multipart upload POST issued by `importSnapshotInternal`. -/
def snapshotRequest (c : StartedMicrocksContainer) : HttpReq :=
  ⟨"POST", c.getHttpEndpoint ++ "/api/import"⟩

/-- The JSON POST issued by `createSecret`. -/
def secretRequest (c : StartedMicrocksContainer) : HttpReq :=
  ⟨"POST", c.getHttpEndpoint ++ "/api/secrets"⟩

/-- The form POST issued by `downloadArtifact`. -/
def downloadRequest (c : StartedMicrocksContainer) : HttpReq :=
  ⟨"POST", c.getHttpEndpoint ++ "/api/artifact/download"⟩

/-- `importArtifact` on a readable regular file reduces to the status check
on its single upload request. -/
theorem importArtifact_statFile (c : StartedMicrocksContainer) (env : IOEnv)
    (p : String) (m : Bool) (st : FileStats) (hst : env.stat p = some st)
    (hfile : st.isFile = true) :
    c.importArtifact env p m =
      (if env.status (uploadRequest c m) ≠ 201 then
        (.error ("Artifact has not been correctly been imported: " ++
          env.bodyText (uploadRequest c m)), [uploadRequest c m])
      else (.ok (), [uploadRequest c m])) := by
  obtain ⟨b⟩ := st
  cases b
  · simp at hfile
  · unfold StartedMicrocksContainer.importArtifact StartedMicrocksContainer.isFileCheck
    rw [hst]
    rfl

/-- `importSnapshotInternal` on a readable regular file reduces to the
status check on its single upload request. -/
theorem importSnapshot_statFile (c : StartedMicrocksContainer) (env : IOEnv)
    (p : String) (st : FileStats) (hst : env.stat p = some st)
    (hfile : st.isFile = true) :
    c.importSnapshot env p =
      (if env.status (snapshotRequest c) ≠ 201 then
        (.error ("Snapshot has not been correctly been imported: " ++
          env.bodyText (snapshotRequest c)), [snapshotRequest c])
      else (.ok (), [snapshotRequest c])) := by
  obtain ⟨b⟩ := st
  cases b
  · simp at hfile
  · unfold StartedMicrocksContainer.importSnapshot StartedMicrocksContainer.importSnapshotInternal
      StartedMicrocksContainer.isFileCheck
    rw [hst]
    rfl

/-- Outcome of a 201-expected status gate: error exactly when the status is
not 201, one fixed request either way. -/
theorem statusGate (st : Nat) (msg : String) (req : HttpReq) :
    ((∃ e, ((if st ≠ 201 then ((Except.error msg : Except String Unit), [req])
        else (.ok (), [req])).1) = .error e) ↔ st ≠ 201) ∧
    ((if st ≠ 201 then ((Except.error msg : Except String Unit), [req])
        else (.ok (), [req])).2 = [req]) := by
  by_cases h : st = 201
  · subst h
    simp
  · simp [h]

/-- Claim C6: each of secret creation, remote-artifact download, artifact
upload, snapshot import and test submission raises an error exactly when
the HTTP response status differs from the expected 201, and issues exactly
one request per call (no retry); for `testEndpoint`, exactly one submission
POST is issued whatever happens afterwards. -/
theorem operations_fail_iff_status_not_201
    (c : StartedMicrocksContainer) (env : IOEnv) (secret : Secret)
    (url artifactPath snapshotPath : String) (mainArtifact : Bool)
    (penv : PollEnv) (t0 fuel : Nat) (testRequest : TestRequest)
    (hart : env.stat artifactPath = some ⟨true⟩)
    (hsnap : env.stat snapshotPath = some ⟨true⟩) :
    ((∃ e, (c.createSecret env secret).1 = .error e) ↔
      env.status (secretRequest c) ≠ 201) ∧
    (c.createSecret env secret).2 = [secretRequest c] ∧
    ((∃ e, (c.downloadArtifact env url mainArtifact).1 = .error e) ↔
      env.status (downloadRequest c) ≠ 201) ∧
    (c.downloadArtifact env url mainArtifact).2 = [downloadRequest c] ∧
    ((∃ e, (c.importArtifact env artifactPath mainArtifact).1 = .error e) ↔
      env.status (uploadRequest c mainArtifact) ≠ 201) ∧
    (c.importArtifact env artifactPath mainArtifact).2 = [uploadRequest c mainArtifact] ∧
    ((∃ e, (c.importSnapshot env snapshotPath).1 = .error e) ↔
      env.status (snapshotRequest c) ≠ 201) ∧
    (c.importSnapshot env snapshotPath).2 = [snapshotRequest c] ∧
    ((testEndpointRun c penv t0 fuel testRequest =
        some (.error launchErrorMsg, [submitRequest c])) ↔ penv.submitStatus ≠ 201) ∧
    (∀ x, testEndpointRun c penv t0 fuel testRequest = some x →
      x.2.countP (fun r => r.method == "POST") = 1) := by
  have hcs : c.createSecret env secret =
      (if env.status (secretRequest c) ≠ 201 then
        (.error ("Secret has not been correctly created: " ++ env.bodyText (secretRequest c)),
         [secretRequest c])
      else (.ok (), [secretRequest c])) := rfl
  have hdl : c.downloadArtifact env url mainArtifact =
      (if env.status (downloadRequest c) ≠ 201 then
        (.error ("Artifact has not been correctly downloaded: " ++
          env.bodyText (downloadRequest c)), [downloadRequest c])
      else (.ok (), [downloadRequest c])) := rfl
  rw [hcs, hdl, importArtifact_statFile c env artifactPath mainArtifact ⟨true⟩ hart rfl,
    importSnapshot_statFile c env snapshotPath ⟨true⟩ hsnap rfl]
  refine ⟨(statusGate _ _ _).1, (statusGate _ _ _).2, (statusGate _ _ _).1,
    (statusGate _ _ _).2, (statusGate _ _ _).1, (statusGate _ _ _).2,
    (statusGate _ _ _).1, (statusGate _ _ _).2, ?_, ?_⟩
  · constructor
    · intro h
      by_cases hs : penv.submitStatus = 201
      · exfalso
        cases hp : penv.poll 0 with
        | error s =>
          rw [testEndpointRun_firstPollErr c penv t0 fuel testRequest s hs hp] at h
          simp at h
        | ok r =>
          rw [testEndpointRun_ok c penv t0 fuel testRequest r hs hp] at h
          rw [Option.map_eq_some'] at h
          obtain ⟨⟨p1, p2⟩, hloop, hmap⟩ := h
          simp only [Prod.mk.injEq] at hmap
          obtain ⟨h1, h2⟩ := hmap
          simp at h2
      · exact hs
    · intro hs
      exact testEndpointRun_submitFail c penv t0 fuel testRequest hs
  · intro x hx
    by_cases hs : penv.submitStatus = 201
    · cases hp : penv.poll 0 with
      | error s =>
        rw [testEndpointRun_firstPollErr c penv t0 fuel testRequest s hs hp] at hx
        cases hx
        rfl
      | ok r =>
        rw [testEndpointRun_ok c penv t0 fuel testRequest r hs hp] at hx
        rw [Option.map_eq_some'] at hx
        obtain ⟨⟨p1, p2⟩, hloop, hmap⟩ := hx
        subst hmap
        have hzero : p2.countP (fun r => r.method == "POST") = 0 := by
          apply List.countP_eq_zero.mpr
          intro a ha
          have hmem := testPollLoop_requests c penv _ fuel 0 r (p1, p2) hloop a ha
          rw [hmem]
          simp [refreshRequest]
        simp [List.countP_cons, hzero, submitRequest, refreshRequest]
    · rw [testEndpointRun_submitFail c penv t0 fuel testRequest hs] at hx
      cases hx
      rfl

/-- An external world where every path is a regular file and the server
answers 201 to everything. -/
def okStatusEnv : IOEnv := ⟨fun _ => some ⟨true⟩, fun _ => 201, fun _ => "resp"⟩

/-- Witness for claim C6 at concrete inputs (server answering 201, readable
files, submission accepted). -/
theorem operations_fail_iff_status_not_201_witness :
    ((∃ e, (localContainer.createSecret okStatusEnv
        ⟨"my-secret", none, none, none, none, none, none⟩).1 = .error e) ↔
      okStatusEnv.status (secretRequest localContainer) ≠ 201) ∧
    (localContainer.createSecret okStatusEnv
      ⟨"my-secret", none, none, none, none, none, none⟩).2 = [secretRequest localContainer] ∧
    ((∃ e, (localContainer.downloadArtifact okStatusEnv "https://r.io/api.yaml" true).1 =
        .error e) ↔ okStatusEnv.status (downloadRequest localContainer) ≠ 201) ∧
    (localContainer.downloadArtifact okStatusEnv "https://r.io/api.yaml" true).2 =
      [downloadRequest localContainer] ∧
    ((∃ e, (localContainer.importArtifact okStatusEnv "art.yaml" true).1 = .error e) ↔
      okStatusEnv.status (uploadRequest localContainer true) ≠ 201) ∧
    (localContainer.importArtifact okStatusEnv "art.yaml" true).2 =
      [uploadRequest localContainer true] ∧
    ((∃ e, (localContainer.importSnapshot okStatusEnv "snap.json").1 = .error e) ↔
      okStatusEnv.status (snapshotRequest localContainer) ≠ 201) ∧
    (localContainer.importSnapshot okStatusEnv "snap.json").2 =
      [snapshotRequest localContainer] ∧
    ((testEndpointRun localContainer promptServerEnv 0 5 zeroTimeoutRequest =
        some (.error launchErrorMsg, [submitRequest localContainer])) ↔
      promptServerEnv.submitStatus ≠ 201) ∧
    (∀ x, testEndpointRun localContainer promptServerEnv 0 5 zeroTimeoutRequest = some x →
      x.2.countP (fun r => r.method == "POST") = 1) :=
  operations_fail_iff_status_not_201 localContainer okStatusEnv
    ⟨"my-secret", none, none, none, none, none, none⟩ "https://r.io/api.yaml"
    "art.yaml" "snap.json" true promptServerEnv 0 5 zeroTimeoutRequest rfl rfl

/-! ## Claim theorems: startup upload order -/

/-- Sequential execution performs a prefix of the planned operations, in
order. -/
theorem runStartOps_executes_prefix (exec : StartupOp → Except String Unit) :
    ∀ ops : List StartupOp, ∃ rest, ops = (runStartOps exec ops).2 ++ rest := by
  intro ops
  induction ops with
  | nil => exact ⟨[], rfl⟩
  | cons op rest ih =>
    unfold runStartOps
    cases hx : exec op with
    | error e => exact ⟨rest, rfl⟩
    | ok u =>
      obtain ⟨tail, htail⟩ := ih
      refine ⟨tail, ?_⟩
      simpa using htail

/-- When every operation succeeds, all of them are executed, in order. -/
theorem runStartOps_all_ok (exec : StartupOp → Except String Unit) :
    ∀ ops : List StartupOp, (∀ op ∈ ops, exec op = .ok ()) →
      runStartOps exec ops = (.ok (), ops) := by
  intro ops
  induction ops with
  | nil => intro _; rfl
  | cons op rest ih =>
    intro hall
    unfold runStartOps
    rw [hall op (by simp)]
    rw [ih (fun o ho => hall o (by simp [ho]))]

/-- Claim C9: `MicrocksContainer.start` performs the configured uploads
sequentially, awaiting each before the next, in the fixed order — all
snapshots, then main remote artifacts, then secondary remote artifacts,
then main local artifacts, then secondary local artifacts, then secrets —
each group in registration order (the builders append to their group). -/
theorem start_upload_order (c : MicrocksContainer) (exec : StartupOp → Except String Unit) :
    c.startSequence =
      c.snapshots.map StartupOp.importSnapshot ++
      c.mainRemoteArtifacts.map StartupOp.downloadAsMainArtifact ++
      c.secondaryRemoteArtifacts.map StartupOp.downloadAsSecondaryArtifact ++
      c.mainArtifacts.map StartupOp.importAsMainArtifact ++
      c.secondaryArtifacts.map StartupOp.importAsSecondaryArtifact ++
      c.secrets.map StartupOp.createSecret ∧
    (∀ xs, (c.withSnapshots xs).snapshots = c.snapshots ++ xs) ∧
    (∀ xs, (c.withMainRemoteArtifacts xs).mainRemoteArtifacts = c.mainRemoteArtifacts ++ xs) ∧
    (∀ xs, (c.withSecondaryRemoteArtifacts xs).secondaryRemoteArtifacts =
      c.secondaryRemoteArtifacts ++ xs) ∧
    (∀ xs, (c.withMainArtifacts xs).mainArtifacts = c.mainArtifacts ++ xs) ∧
    (∀ xs, (c.withSecondaryArtifacts xs).secondaryArtifacts = c.secondaryArtifacts ++ xs) ∧
    (∀ s, (c.withSecret s).secrets = c.secrets ++ [s]) ∧
    (∃ rest, c.startSequence = (c.startUploads exec).2 ++ rest) ∧
    ((∀ op ∈ c.startSequence, exec op = .ok ()) →
      c.startUploads exec = (.ok (), c.startSequence)) :=
  ⟨rfl, fun _ => rfl, fun _ => rfl, fun _ => rfl, fun _ => rfl, fun _ => rfl, fun _ => rfl,
   runStartOps_executes_prefix exec c.startSequence,
   fun hall => runStartOps_all_ok exec c.startSequence hall⟩

/-- A concrete configured container. -/
def configuredContainer : MicrocksContainer :=
  { imageName := "quay.io/microcks/microcks-uber:1.10.0",
    snapshots := ["snap.json"],
    mainArtifacts := ["a.yaml", "b.yaml"],
    secondaryArtifacts := ["c.yaml"],
    mainRemoteArtifacts := ["https://r.io/m.yaml"],
    secondaryRemoteArtifacts := ["https://r.io/s.yaml"],
    secrets := [⟨"my-secret", none, none, none, none, none, none⟩] }

/-- Witness for claim C9 on a concrete configuration where every upload
succeeds. -/
theorem start_upload_order_witness :
    configuredContainer.startUploads (fun _ => .ok ()) =
      (.ok (), configuredContainer.startSequence) :=
  (start_upload_order configuredContainer (fun _ => .ok ())).2.2.2.2.2.2.2.2
    (fun _ _ => rfl)

/-! ## Claim theorems: ensemble async connections -/

/-- Claim C10: on an ensemble where `withAsyncFeature` has not been called,
`withKafkaConnection`, `withAmazonSQSConnection` and
`withAmazonSNSConnection` each throw
`Async feature must have been enabled first` — the check precedes any
mutation, so the configuration is untouched; once `withAsyncFeature` has
been called they all succeed, returning the ensemble for chaining. -/
theorem async_connections_require_async_feature
    (e : MicrocksContainersEnsemble) (kconn : KafkaConnection)
    (sqsConn snsConn : AmazonServiceConnection) :
    (e.asyncMinion = none →
      e.withKafkaConnection kconn = .error "Async feature must have been enabled first" ∧
      e.withAmazonSQSConnection sqsConn =
        .error "Async feature must have been enabled first" ∧
      e.withAmazonSNSConnection snsConn =
        .error "Async feature must have been enabled first") ∧
    (∀ image,
      (∃ e2, (e.withAsyncFeature image).withKafkaConnection kconn = .ok e2) ∧
      (∃ e2, (e.withAsyncFeature image).withAmazonSQSConnection sqsConn = .ok e2) ∧
      (∃ e2, (e.withAsyncFeature image).withAmazonSNSConnection snsConn = .ok e2)) := by
  constructor
  · intro hnone
    unfold MicrocksContainersEnsemble.withKafkaConnection
      MicrocksContainersEnsemble.withAmazonSQSConnection
      MicrocksContainersEnsemble.withAmazonSNSConnection
    rw [hnone]
    exact ⟨rfl, rfl, rfl⟩
  · intro image
    exact ⟨⟨_, rfl⟩, ⟨_, rfl⟩, ⟨_, rfl⟩⟩

/-- A concrete ensemble on which the async feature was never enabled. -/
def bareEnsemble : MicrocksContainersEnsemble :=
  { microcks := { imageName := "quay.io/microcks/microcks-uber:1.8.1" } }

/-- A concrete Kafka connection. -/
def kafkaConnW : KafkaConnection := ⟨"kafka:9092"⟩

/-- A concrete Amazon service connection. -/
def amazonConnW : AmazonServiceConnection := ⟨"us-east-1", none, "access", "secret"⟩

/-- Witness for claim C10 on a concrete ensemble. -/
theorem async_connections_require_async_feature_witness :
    (bareEnsemble.withKafkaConnection kafkaConnW =
        .error "Async feature must have been enabled first" ∧
      bareEnsemble.withAmazonSQSConnection amazonConnW =
        .error "Async feature must have been enabled first" ∧
      bareEnsemble.withAmazonSNSConnection amazonConnW =
        .error "Async feature must have been enabled first") ∧
    ((∃ e2, (bareEnsemble.withAsyncFeature none).withKafkaConnection kafkaConnW = .ok e2) ∧
      (∃ e2, (bareEnsemble.withAsyncFeature none).withAmazonSQSConnection amazonConnW =
        .ok e2) ∧
      (∃ e2, (bareEnsemble.withAsyncFeature none).withAmazonSNSConnection amazonConnW =
        .ok e2)) :=
  ⟨(async_connections_require_async_feature bareEnsemble kafkaConnW amazonConnW
      amazonConnW).1 rfl,
   (async_connections_require_async_feature bareEnsemble kafkaConnW amazonConnW
      amazonConnW).2 none⟩

end Microcks
